import Mathlib

/-!
Verification of the smart-home IoT ingestion, alerting and control pipeline.

The definitions below are a shallow embedding of the Python sources of the
repository (backend Flask services and the Raspberry Pi edge code).  Machine
floats that only ever carry sensor values, thresholds and wall-clock instants
are modelled as rationals; Python class state becomes explicit state records;
fallible operations return Option or Except values.  External collaborators
(the PubNub transport, the SQLAlchemy database, wall-clock time) appear as
explicit parameters of the embedded functions.
-/

namespace SmartHomeIoT

/-! ## Alert engine (backend/app/services/alert_service.py) -/

/-- One sensor type's entry of AlertService.THRESHOLDS: a Python dict that may
contain a high bound, a low bound, or both. -/
structure Thresholds where
  high : Option ℚ := none
  low : Option ℚ := none
deriving DecidableEq

/-- The static threshold table AlertService.THRESHOLDS
(alert_service.py lines 15-19). -/
def THRESHOLDS : String → Option Thresholds := fun s =>
  if s = "temperature" then some { high := some 30, low := some 15 }
  else if s = "humidity" then some { high := some 70, low := some 30 }
  else if s = "light" then some { low := some 50 }
  else none

/-- The alert_data dict built by AlertService.check_thresholds.  The
human-readable message text and the wall-clock timestamp are outside the
model; every field a claim mentions is kept. -/
structure AlertData where
  type_ : String
  alert_type : String
  severity : String
  sensor_type : String
  value : ℚ
  threshold_value : ℚ
  device_id : Option String
deriving DecidableEq

/-- The alert_data built in the high-threshold branch
(alert_service.py lines 61-72). -/
def mk_high_alert (sensor_type : String) (value hi : ℚ) (device_id : Option String) : AlertData :=
  { type_ := "alert", alert_type := "HIGH_TEMPERATURE", severity := "warning",
    sensor_type := sensor_type, value := value, threshold_value := hi, device_id := device_id }

/-- The alert_data built in the low-threshold branch
(alert_service.py lines 74-85). -/
def mk_low_alert (sensor_type : String) (value lo : ℚ) (device_id : Option String) : AlertData :=
  { type_ := "alert", alert_type := "LOW_TEMPERATURE", severity := "info",
    sensor_type := sensor_type, value := value, threshold_value := lo, device_id := device_id }

/-- The low-bound half of the elif chain of check_thresholds:
low is in the dict and value is strictly below it. -/
def check_low (th : Thresholds) (sensor_type : String) (value : ℚ)
    (device_id : Option String) : Option AlertData :=
  match th.low with
  | some lo => if value < lo then some (mk_low_alert sensor_type value lo device_id) else none
  | none => none

/-- AlertService.check_thresholds (alert_service.py lines 51-90), up to the
alert_data it decides to produce.  The subsequent save_alert persistence call
is an external side effect on that data.  The threshold table is the
self.THRESHOLDS attribute, passed here as a parameter. -/
def check_thresholds (tbl : String → Option Thresholds) (sensor_type : String) (value : ℚ)
    (device_id : Option String) : Option AlertData :=
  match tbl sensor_type with
  | none => none
  | some th =>
    match th.high with
    | some hi =>
      if value > hi then some (mk_high_alert sensor_type value hi device_id)
      else check_low th sensor_type value device_id
    | none => check_low th sensor_type value device_id

/-- A threshold table whose low bound sits above its high bound, used to
exercise the pathological both-bounds-violated case. -/
def pathological_table : String → Option Thresholds :=
  fun _ => some { high := some 10, low := some 20 }

/-! ## Channel configuration check (backend/app/pubnub_handler.py) -/

/-- The three channel names read from Config by PubNubHandler.init_app. -/
structure ChannelConfig where
  sensor : String
  control : String
  alert : String
deriving DecidableEq

/-- The startup validation performed by PubNubHandler.init_app
(pubnub_handler.py lines 24-31): a ValueError is raised exactly when the
sensor channel name equals the alert channel name. -/
def init_app_channel_check (c : ChannelConfig) : Except String Unit :=
  if c.sensor = c.alert then Except.error "PubNub channels must be different"
  else Except.ok ()

/-- Pairwise distinctness of the three logical channel names, as the spec's
startup precondition demands. -/
def pairwiseDistinct (c : ChannelConfig) : Prop :=
  c.sensor ≠ c.control ∧ c.sensor ≠ c.alert ∧ c.control ≠ c.alert

/-! ## Control synchronizer (backend/app/services/control_service.py) -/

/-- The default control channel name, Config.PUBNUB_CONTROL_CHANNEL
(config.py line 31). -/
def PUBNUB_CONTROL_CHANNEL : String := "smart-home-control"

/-- A message published by the control service.  The control_command message
carries the requested action and the top-level brightness; the state_update
confirmation carries the achieved state and a parameters dict. -/
structure PubMessage where
  type_ : String
  device : String
  action : Option String := none
  state : Option String := none
  brightness : Option ℤ := none
  parameters : List (String × ℤ) := []
deriving DecidableEq

/-- One observable side effect of ControlService.control_led, in the order the
code performs it: a committed DeviceState upsert or a bus publish. -/
inductive ControlEffect
  | persistState (device_name : String) (state : String) (parameters : List (String × ℤ))
  | publish (channel : String) (msg : PubMessage)
deriving DecidableEq

/-- The dict control_led returns to its caller (the free-text message field is
outside the model). -/
structure ControlResult where
  success : Bool
  error : Bool := false
  action : Option String := none
  device : Option String := none
  state : Option String := none
  brightness : Option ℤ := none
deriving DecidableEq

/-- The environment control_led runs in: the current DeviceState row for the
led device (none when no row exists), whether the pubnub_handler global and
its service are available, and the outcomes of the two publishes.
PubNubService.publish returns a boolean and never raises, and control_led
ignores that boolean, so the two outcome fields cannot influence anything
the embedding computes; quantifying over them states exactly that. -/
structure ControlCtx where
  led_state : Option String := none
  pubnub_available : Bool := true
  cmd_publish_ok : Bool := true
  state_publish_ok : Bool := true

/-- Brightness clamping in control_led (line 147): max(0, min(100, b)). -/
def clamp_brightness (b : ℤ) : ℤ := max 0 (min 100 b)

/-- Toggle resolution in control_led (lines 151-158): the row must exist and
hold state on for the toggle to resolve to off; otherwise it resolves to
on. -/
def toggle_resolve (current : Option String) : String :=
  match current with
  | some s => if s = "on" then "off" else "on"
  | none => "on"

/-- ControlService.control_led (control_service.py lines 135-202), returning
the ordered list of side effects it performs together with its result dict.
The persist effect stands for the committed _save_device_state upsert; the
publish effects only happen when the pubnub_handler global is available, as
in the source. -/
def control_led (ctx : ControlCtx) (action : String) (brightness : ℤ) :
    List ControlEffect × ControlResult :=
  if action ∉ (["on", "off", "toggle"] : List String) then
    ([], { success := false, error := true })
  else
    let b := clamp_brightness brightness
    let final_state := if action = "toggle" then toggle_resolve ctx.led_state else action
    let persistEffs := [ControlEffect.persistState "led" final_state [("brightness", b)]]
    let cmdEffs :=
      if ctx.pubnub_available then
        [ControlEffect.publish PUBNUB_CONTROL_CHANNEL
          { type_ := "control_command", device := "led", action := some action,
            brightness := some b }]
      else []
    let stateEffs :=
      if ctx.pubnub_available then
        [ControlEffect.publish PUBNUB_CONTROL_CHANNEL
          { type_ := "state_update", device := "led", state := some final_state,
            parameters := [("brightness", b)] }]
      else []
    (persistEffs ++ cmdEffs ++ stateEffs,
     { success := true, action := some action, device := some "led",
       state := some final_state, brightness := some b })

/-- The led row of the device_states table after replaying a list of control
effects: publishes leave the database untouched, a committed persist to the
led row overwrites it. -/
def db_led_after (led : Option String) : List ControlEffect → Option String
  | [] => led
  | ControlEffect.persistState "led" st _ :: rest => db_led_after (some st) rest
  | ControlEffect.persistState _ _ _ :: rest => db_led_after led rest
  | ControlEffect.publish _ _ :: rest => db_led_after led rest

/-! ## Bus client publish (backend/app/services/pubnub_service.py) -/

/-- A wire message as PubNubService.publish sees it: a possibly absent
timestamp entry plus the remaining key/value entries, which publish never
touches. -/
structure WireMessage where
  timestamp : Option String := none
  fields : List (String × String) := []
deriving DecidableEq

/-- The outcome of the underlying transport call inside publish: a clean
envelope, an envelope whose status reports an error, or a raised exception. -/
inductive TransportOutcome
  | success
  | errorStatus
  | raised
deriving DecidableEq

/-- PubNubService.publish (pubnub_service.py lines 55-93).  The timestamp is
injected first, inside the try block, so it is present whatever the transport
does afterwards; an error status and a raised exception both surface to the
caller as the boolean false, never as an exception. -/
def pubnub_publish (message : WireMessage) (now : String) (transport : TransportOutcome) :
    WireMessage × Bool :=
  let message :=
    if message.timestamp = none then { message with timestamp := some now } else message
  match transport with
  | TransportOutcome.success => (message, true)
  | TransportOutcome.errorStatus => (message, false)
  | TransportOutcome.raised => (message, false)

/-! ## DHT22 retry loop and the sensor batch
(raspberry-pi/sensors/dht22_sensor.py, raspberry-pi/main.py) -/

/-- The retry loop of DHT22Sensor.read_with_retry, parameterised by the
outcome of each underlying read() attempt.  Returns the value obtained
together with the number of read() calls performed.  attemptsDone counts the
calls already made, fuel the attempts still allowed. -/
def read_with_retry_aux (reads : ℕ → Option (ℚ × ℚ)) :
    ℕ → ℕ → Option (ℚ × ℚ) × ℕ
  | attemptsDone, 0 => (none, attemptsDone)
  | attemptsDone, fuel + 1 =>
    match reads attemptsDone with
    | some v => (some v, attemptsDone + 1)
    | none => read_with_retry_aux reads (attemptsDone + 1) fuel

/-- DHT22Sensor.read_with_retry (dht22_sensor.py lines 122-143): up to
max_attempts read() calls, stopping at the first success; the inter-attempt
delay has no observable effect in the model. -/
def read_with_retry (reads : ℕ → Option (ℚ × ℚ)) (max_attempts : ℕ) :
    Option (ℚ × ℚ) × ℕ :=
  read_with_retry_aux reads 0 max_attempts

/-- The default device identity of the edge process
(raspberry-pi/config/settings.py). -/
def DEVICE_ID : String := "raspberry_pi_main"

/-- The default device location of the edge process. -/
def DEVICE_LOCATION : String := "living_room"

/-- The combined data dict assembled by SmartHomeController.read_all_sensors:
device identity plus one optional entry per sensor quantity.  The shared
wall-clock timestamp entry is outside the model. -/
structure SensorBatch where
  device_id : String
  location : String
  temperature : Option ℚ := none
  humidity : Option ℚ := none
  light : Option ℚ := none
  motion : Option Bool := none
deriving DecidableEq

/-- SmartHomeController.read_all_sensors (main.py lines 209-246): the DHT22
is read through read_with_retry with max_attempts 2 and contributes the
temperature and humidity entries only on success; the light entry appears
only when the LDR read succeeds; the motion entry appears only when the PIR
read returns 1.0. -/
def read_all_sensors (dhtReads : ℕ → Option (ℚ × ℚ)) (light : Option ℚ)
    (pir : Option ℚ) : SensorBatch :=
  let base : SensorBatch := { device_id := DEVICE_ID, location := DEVICE_LOCATION }
  let b1 :=
    match (read_with_retry dhtReads 2).1 with
    | some th => { base with temperature := some th.1, humidity := some th.2 }
    | none => base
  let b2 :=
    match light with
    | some l => { b1 with light := some l }
    | none => b1
  match pir with
  | some v => if v = 1 then { b2 with motion := some true } else b2
  | none => b2

/-- The retry scenario of the spec: the hardware read fails on the first two
of three attempts and succeeds on the third with 21.5 degrees and 55
percent. -/
def dhtScenario : ℕ → Option (ℚ × ℚ) := fun n =>
  if n = 2 then some (43 / 2, 55) else none

/-! ## Motion state machine (raspberry-pi/sensors/pir_sensor.py) -/

/-- A motion history entry: the dicts appended by _on_motion_start and
_on_motion_end.  typ is the dict's type key, "start" or "end". -/
structure MotionEvent where
  timestamp : ℚ
  typ : String
  event_number : Option ℕ := none
  duration : Option ℚ := none
deriving DecidableEq

/-- PIRSensor._add_to_history (pir_sensor.py lines 352-357): append, then
pop(0) once when the length exceeds the capacity. -/
def add_to_history (max_history : ℕ) (hist : List MotionEvent) (e : MotionEvent) :
    List MotionEvent :=
  let h := hist ++ [e]
  if max_history < h.length then h.drop 1 else h

/-- The timing configuration of PIRSensor, with the constructor defaults
(pir_sensor.py lines 49-51). -/
structure PIRConfig where
  debounce_time : ℚ := 1 / 10
  motion_timeout : ℚ := 5

/-- The mutable state of a PIRSensor.  The emitted list is the observation of
the events the machine emits (each entry mirrors one _on_motion_start or
_on_motion_end call, which is also when the corresponding callback is
invoked); it exists alongside the capacity-bounded motion_history the source
keeps.  Calibration is complete from construction on, as in simulation
mode. -/
structure PIRState where
  last_motion_time : Option ℚ := none
  last_read_time : ℚ := 0
  last_state : Bool := false
  motion_active : Bool := false
  total_motion_events : ℕ := 0
  total_readings : ℕ := 0
  motion_durations : List ℚ := []
  motion_history : List MotionEvent := []
  emitted : List MotionEvent := []

/-- The freshly constructed PIRSensor state (pir_sensor.py lines 118-132). -/
def initPIRState : PIRState := {}

/-- PIRSensor._on_motion_start (lines 297-319): bump the event counter, mark
motion active, record a start event. -/
def on_motion_start (s : PIRState) (t : ℚ) : PIRState :=
  let n := s.total_motion_events + 1
  let e : MotionEvent := { timestamp := t, typ := "start", event_number := some n }
  { s with total_motion_events := n, motion_active := true,
           motion_history := add_to_history 100 s.motion_history e,
           emitted := s.emitted ++ [e] }

/-- PIRSensor._on_motion_end (lines 321-350): mark motion inactive, compute a
duration only when the latest history entry is a start, record an end
event. -/
def on_motion_end (s : PIRState) (t : ℚ) : PIRState :=
  let dur : Option ℚ :=
    match s.motion_history.getLast? with
    | some prev => if prev.typ = "start" then some (t - prev.timestamp) else none
    | none => none
  let e : MotionEvent := { timestamp := t, typ := "end", duration := dur }
  { s with motion_active := false,
           motion_durations := s.motion_durations ++ dur.toList,
           motion_history := add_to_history 100 s.motion_history e,
           emitted := s.emitted ++ [e] }

/-- The state-change block of PIRSensor.read (lines 277-293), run only for an
accepted (non-debounced) sample: the edge dispatch on the previous raw
sample, the last-motion-time refresh, and the last-state update. -/
def pir_step_core (cfg : PIRConfig) (s : PIRState) (t : ℚ) (motion : Bool) : PIRState :=
  let s1 :=
    if motion && !s.last_state then on_motion_start s t
    else if !motion && s.last_state then
      match s.last_motion_time with
      | some tm => if t - tm > cfg.motion_timeout then on_motion_end s t else s
      | none => s
    else s
  let s2 := if motion then { s1 with last_motion_time := some t, motion_active := true } else s1
  { s2 with last_state := motion }

/-- PIRSensor.read (pir_sensor.py lines 252-295) at wall-clock instant t with
raw sample motion.  A sample arriving within debounce_time of the last
accepted one is rejected: the previous classification is returned and no
state changes beyond the reading counter. -/
def pir_read (cfg : PIRConfig) (s : PIRState) (t : ℚ) (motion : Bool) :
    PIRState × Option ℚ :=
  let s := { s with total_readings := s.total_readings + 1 }
  if t - s.last_read_time < cfg.debounce_time then
    (s, some (if s.motion_active then 1 else 0))
  else
    let s := { s with last_read_time := t }
    (pir_step_core cfg s t motion, some (if motion then 1 else 0))

/-- Feed a timed sample sequence through PIRSensor.read. -/
def pir_run (cfg : PIRConfig) (s : PIRState) : List (ℚ × Bool) → PIRState
  | [] => s
  | (t, b) :: rest => pir_run cfg (pir_read cfg s t b).1 rest

/-- All samples of the trace are accepted: each arrives at least
debounce_time after the previously accepted one (last is the machine's
last_read_time before the trace, 0 at construction). -/
def wellSpaced (d : ℚ) : ℚ → List (ℚ × Bool) → Prop
  | _, [] => True
  | last, (t, _) :: rest => d ≤ t - last ∧ wellSpaced d t rest

/-- Number of maximal true-runs where runs are separated only by gaps whose
true-to-true spacing exceeds the timeout, following the claim's wording: a
true sample opens a new run exactly when there is no earlier true sample or
the previous true sample lies more than timeout in the past. -/
def spec_gap_split_runs (timeout : ℚ) : Option ℚ → List (ℚ × Bool) → ℕ
  | _, [] => 0
  | prevTrue, (t, b) :: rest =>
    if b then
      (match prevTrue with
       | none => 1
       | some tp => if t - tp > timeout then 1 else 0)
        + spec_gap_split_runs timeout (some t) rest
    else spec_gap_split_runs timeout prevTrue rest

/-- Start events the code emits on an accepted sample sequence: one per
false-to-true edge of the raw samples, previous sample given.  This counts
the maximal true-runs of the sequence, a run ending at every accepted false
sample regardless of how short the gap is. -/
def start_count : Bool → List Bool → ℕ
  | _, [] => 0
  | prev, b :: rest => (if b && !prev then 1 else 0) + start_count b rest

/-- End events the code emits on an accepted sample sequence: one at each
true-to-false edge whose distance to the most recent true sample exceeds the
timeout, and nowhere else. -/
def end_count (timeout : ℚ) : Option ℚ → Bool → List (ℚ × Bool) → ℕ
  | _, _, [] => 0
  | lastMotion, prev, (t, b) :: rest =>
    (if !b && prev then
      match lastMotion with
      | some tm => if t - tm > timeout then 1 else 0
      | none => 0
     else 0)
      + end_count timeout (if b then some t else lastMotion) b rest

/-- Claim C2 as stated: over every accepted sample sequence, the machine
emits exactly one start event per maximal true-run, where only a gap longer
than motion_timeout separates runs. -/
def pirStartClaim (cfg : PIRConfig) : Prop :=
  ∀ trace : List (ℚ × Bool), wellSpaced cfg.debounce_time 0 trace →
    (pir_run cfg initPIRState trace).total_motion_events
      = spec_gap_split_runs cfg.motion_timeout none trace

/-- The PIRConfig with the constructor defaults. -/
def defaultPIRConfig : PIRConfig := {}

/-! ## Sensor message routing (backend/app/pubnub_handler.py,
backend/app/services/sensor_service.py, backend/app/models/sensor_data.py) -/

/-- An inbound bus payload as the sensor handler sees it: the envelope keys
plus the per-quantity keys a batch from the edge carries.  Absent dict keys
are none. -/
structure PNMessage where
  type_ : Option String := none
  sensor_type : Option String := none
  value : Option ℚ := none
  unit : Option String := none
  location : Option String := none
  device_id : Option String := none
  temperature : Option ℚ := none
  humidity : Option ℚ := none
  light : Option ℚ := none
  motion : Option Bool := none
deriving DecidableEq

/-- A sensor_readings row as SensorReading.from_pubnub_message constructs it
(sensor_data.py lines 36-72): single-valued, built from the message's
sensor_type and value keys (None when absent), with defaulted location and
device_id.  The timestamp column is wall-clock and outside the model. -/
structure SensorReadingRow where
  sensor_type : Option String
  value : Option ℚ
  unit : Option String
  location : String
  device_id : String
deriving DecidableEq

/-- SensorReading.from_pubnub_message: one row per message. -/
def from_pubnub_message (m : PNMessage) : SensorReadingRow :=
  { sensor_type := m.sensor_type, value := m.value, unit := m.unit,
    location := m.location.getD "living_room",
    device_id := m.device_id.getD "raspberry_pi_main" }

/-- SensorService.save_reading (sensor_service.py lines 17-49): build one row
from the message and commit it; on a database error roll back and return
None.  dbOk is the commit outcome. -/
def save_reading (dbOk : Bool) (m : PNMessage) : Option SensorReadingRow :=
  if dbOk then some (from_pubnub_message m) else none

/-- What one call of PubNubHandler.handle_sensor_message did: the rows
committed, the (sensor_type, value) pairs actually passed to
check_thresholds, and whether the surrounding except block caught an
exception. -/
structure SensorHandlerResult where
  persisted : List SensorReadingRow
  checked : List (Option String × Option ℚ)
  exceptionCaught : Bool
deriving DecidableEq

/-- PubNubHandler.handle_sensor_message (pubnub_handler.py lines 66-106).
A message whose type key is not sensor_data is dropped.  Otherwise
save_reading commits a single SensorReading row and returns it; the handler
binds it to readings and, the row object being truthy, enters the if block
and iterates it (for r in readings).  A SensorReading model instance is not
iterable, so the iteration raises TypeError before any threshold check runs;
the handler's except block catches and logs it. -/
def handle_sensor_message (dbOk : Bool) (m : PNMessage) : SensorHandlerResult :=
  if m.type_ ≠ some "sensor_data" then
    { persisted := [], checked := [], exceptionCaught := false }
  else
    match save_reading dbOk m with
    | none => { persisted := [], checked := [], exceptionCaught := false }
    | some row => { persisted := [row], checked := [], exceptionCaught := true }

/-- The fan-out the spec describes for a valid sensor message: one reading
per populated sensor field, in field order, motion encoded as 1/0. -/
def spec_fan_out (m : PNMessage) : List (String × ℚ) :=
  (match m.temperature with | some v => [("temperature", v)] | none => []) ++
    (match m.humidity with | some v => [("humidity", v)] | none => []) ++
    (match m.light with | some v => [("light", v)] | none => []) ++
    (match m.motion with | some b => [("motion", if b then 1 else 0)] | none => [])

/-- A batch message as the edge's read_all_sensors publishes it, carrying two
populated sensor fields. -/
def batchMessage : PNMessage :=
  { type_ := some "sensor_data", device_id := some "rpi-001",
    location := some "living_room",
    temperature := some (45 / 2), humidity := some 55 }

/-! ## Theorems -/

/-- Unfolding helper: check_thresholds on a sensor type present in the
table. -/
theorem check_thresholds_of_found (tbl : String → Option Thresholds) (st : String)
    (v : ℚ) (did : Option String) (th : Thresholds) (h : tbl st = some th) :
    check_thresholds tbl st v did =
      match th.high with
      | some hi =>
        if v > hi then some (mk_high_alert st v hi did) else check_low th st v did
      | none => check_low th st v did := by
  unfold check_thresholds
  rw [h]

/-- C3: for every sensor type present in the threshold table and every value,
check_thresholds produces an alert exactly when the value is strictly above
the configured high bound or strictly below the configured low bound (an
absent bound imposes no constraint); and when a pathological table makes
both bounds violated at once, the single alert produced is the high-breach
one, because the high check is evaluated first. -/
theorem check_thresholds_alert_iff (tbl : String → Option Thresholds) (st : String)
    (v : ℚ) (did : Option String) (th : Thresholds) (h : tbl st = some th) :
    ((check_thresholds tbl st v did).isSome ↔
      (∃ hi, th.high = some hi ∧ hi < v) ∨ (∃ lo, th.low = some lo ∧ v < lo)) ∧
    (∀ hi lo, th.high = some hi → th.low = some lo → hi < v → v < lo →
      check_thresholds tbl st v did = some (mk_high_alert st v hi did)) := by
  constructor
  · rw [check_thresholds_of_found tbl st v did th h]
    unfold check_low
    rcases th with ⟨hh, ll⟩
    cases hh with
    | none =>
      cases ll with
      | none => simp
      | some lo => by_cases hv : v < lo <;> simp [hv]
    | some hi =>
      by_cases hv : hi < v
      · simp [hv]
      · cases ll with
        | none => simp [hv]
        | some lo => by_cases hv2 : v < lo <;> simp [hv, hv2]
  · intro hi lo hhi hlo h1 h2
    rw [check_thresholds_of_found tbl st v did th h, hhi]
    simp [h1]

/-- Witness for C3: on a pathological table with high 10 below low 20, the
value 15 violates both bounds and the one alert produced is the high one. -/
theorem check_thresholds_alert_iff_witness :
    check_thresholds pathological_table "humidity" 15 none
      = some (mk_high_alert "humidity" 15 10 none) :=
  (check_thresholds_alert_iff pathological_table "humidity" 15 none
      { high := some 10, low := some 20 } rfl).2 10 20 rfl rfl
    (by norm_num) (by norm_num)

/-- C10: on the shipped threshold table, every high-bound breach is labelled
HIGH_TEMPERATURE and every low-bound breach LOW_TEMPERATURE, whatever the
sensor type, while the alert's sensor_type, value and threshold_value fields
carry the actual sensor and bound. -/
theorem check_thresholds_alert_type_hardcoded (st : String) (v : ℚ)
    (did : Option String) (th : Thresholds) (h : THRESHOLDS st = some th) :
    (∀ hi, th.high = some hi → hi < v →
      check_thresholds THRESHOLDS st v did = some (mk_high_alert st v hi did) ∧
      (mk_high_alert st v hi did).alert_type = "HIGH_TEMPERATURE" ∧
      (mk_high_alert st v hi did).sensor_type = st ∧
      (mk_high_alert st v hi did).value = v ∧
      (mk_high_alert st v hi did).threshold_value = hi) ∧
    (∀ lo, th.low = some lo → v < lo → (∀ hi, th.high = some hi → v ≤ hi) →
      check_thresholds THRESHOLDS st v did = some (mk_low_alert st v lo did) ∧
      (mk_low_alert st v lo did).alert_type = "LOW_TEMPERATURE" ∧
      (mk_low_alert st v lo did).sensor_type = st ∧
      (mk_low_alert st v lo did).value = v ∧
      (mk_low_alert st v lo did).threshold_value = lo) := by
  constructor
  · intro hi hhi h1
    refine ⟨?_, rfl, rfl, rfl, rfl⟩
    rw [check_thresholds_of_found THRESHOLDS st v did th h, hhi]
    simp [h1]
  · intro lo hlo h1 h2
    refine ⟨?_, rfl, rfl, rfl, rfl⟩
    rw [check_thresholds_of_found THRESHOLDS st v did th h]
    cases hhi : th.high with
    | none => unfold check_low; rw [hlo]; simp [h1]
    | some hi =>
      have hle := h2 hi hhi
      unfold check_low
      rw [hlo]
      simp [h1, not_lt.mpr hle]

/-- Witness for C10: a humidity breach of the high bound 70 is labelled
HIGH_TEMPERATURE, and a light breach of the low bound 50 is labelled
LOW_TEMPERATURE, each with the true sensor type and bound in the data
fields. -/
theorem check_thresholds_alert_type_hardcoded_witness :
    check_thresholds THRESHOLDS "humidity" 80 none
        = some (mk_high_alert "humidity" 80 70 none) ∧
      (mk_high_alert "humidity" 80 70 none).alert_type = "HIGH_TEMPERATURE" ∧
      check_thresholds THRESHOLDS "light" 10 none
        = some (mk_low_alert "light" 10 50 none) ∧
      (mk_low_alert "light" 10 50 none).alert_type = "LOW_TEMPERATURE" := by
  have hh := (check_thresholds_alert_type_hardcoded "humidity" 80 none
      { high := some 70, low := some 30 } (by decide)).1 70 rfl (by norm_num)
  have hl := (check_thresholds_alert_type_hardcoded "light" 10 none
      { high := none, low := some 50 } (by decide)).2 50 rfl (by norm_num)
      (by intro hi hhi; cases hhi)
  exact ⟨hh.1, hh.2.1, hl.1, hl.2.1⟩

/-- C4 counterexample: the claim that startup fails whenever any two of the
three channel names coincide is false on the code: with the sensor and
control channels sharing a name and a distinct alert channel,
PubNubHandler.init_app performs its only check, sensor against alert, and
proceeds without error. -/
theorem init_app_pairwise_check_false :
    ¬ (∀ c : ChannelConfig, ¬ pairwiseDistinct c →
        ∃ e, init_app_channel_check c = Except.error e) := by
  intro h
  rcases h { sensor := "smart-home-sensors", control := "smart-home-sensors",
             alert := "smart-home-alerts" }
      (by simp [pairwiseDistinct]) with ⟨e, he⟩
  simp [init_app_channel_check] at he

/-- C4 amended: PubNubHandler.init_app raises its fatal configuration error
exactly when the sensor channel name equals the alert channel name; a
coincidence involving the control channel is not detected.  In particular
startup does fail fast when sensor equals alert. -/
theorem init_app_check_sensor_alert_only (c : ChannelConfig) :
    (∃ e, init_app_channel_check c = Except.error e) ↔ c.sensor = c.alert := by
  unfold init_app_channel_check
  by_cases h : c.sensor = c.alert <;> simp [h]

/-- Helper for C7: folding appends through _add_to_history keeps exactly the
most recent capacity-many events, in order. -/
theorem add_to_history_foldl (n : ℕ) (evs : List MotionEvent) :
    ∀ h0 : List MotionEvent, h0.length ≤ n →
      evs.foldl (add_to_history n) h0 = (h0 ++ evs).drop ((h0 ++ evs).length - n) := by
  induction evs with
  | nil =>
    intro h0 hl
    simp [Nat.sub_eq_zero_of_le hl]
  | cons e rest ih =>
    intro h0 hl
    rw [List.foldl_cons]
    rcases lt_or_eq_of_le hl with hlt | heq
    · have hn : ¬ n < (h0 ++ [e]).length := by
        simp only [List.length_append, List.length_cons, List.length_nil]
        omega
      have hstep : add_to_history n h0 e = h0 ++ [e] := by
        simp only [add_to_history]
        rw [if_neg hn]
      rw [hstep, ih (h0 ++ [e]) (by simp; omega)]
      simp [List.append_assoc]
    · have hn : n < (h0 ++ [e]).length := by
        simp only [List.length_append, List.length_cons, List.length_nil]
        omega
      have hstep : add_to_history n h0 e = (h0 ++ [e]).drop 1 := by
        simp only [add_to_history]
        rw [if_pos hn]
      rw [hstep]
      have hlen1 : ((h0 ++ [e]).drop 1).length ≤ n := by simp; omega
      rw [ih _ hlen1]
      have hsplit : (h0 ++ [e]).drop 1 ++ rest = ((h0 ++ [e]) ++ rest).drop 1 :=
        (List.drop_append_of_le_length (by simp)).symm
      rw [hsplit, List.drop_drop]
      have harr : (h0 ++ [e]) ++ rest = h0 ++ e :: rest := by simp
      rw [harr]
      congr 1
      simp only [List.length_drop, List.length_append, List.length_cons,
        List.length_nil]
      omega

/-- C7: for every sequence of motion events appended through
PIRSensor._add_to_history with the constructor capacity 100, the history is
exactly the most recent at-most-100 events in arrival order: its length
never exceeds 100, and once full each append evicts the oldest entry. -/
theorem motion_history_bounded_fifo (evs : List MotionEvent) :
    (evs.foldl (add_to_history 100) []).length ≤ 100 ∧
    evs.foldl (add_to_history 100) [] = evs.drop (evs.length - 100) := by
  have h := add_to_history_foldl 100 evs [] (by simp)
  simp only [List.nil_append] at h
  refine ⟨?_, h⟩
  rw [h]
  simp only [List.length_drop]
  omega

/-- C8: PubNubService.publish injects a timestamp exactly when the message
lacks one, leaves an existing timestamp and every other entry unchanged, and
reports transport trouble, error status or raised exception alike, as the
return value false rather than an exception (the embedding is a total
function into Bool). -/
theorem publish_timestamp_and_failure (m : WireMessage) (now : String)
    (tr : TransportOutcome) :
    ((pubnub_publish m now tr).1.timestamp
        = match m.timestamp with
          | none => some now
          | some t => some t) ∧
    (pubnub_publish m now tr).1.fields = m.fields ∧
    ((pubnub_publish m now tr).2 = true ↔ tr = TransportOutcome.success) := by
  cases htm : m.timestamp <;> cases tr <;>
    simp [pubnub_publish, htm]

/-- C5: on every successful led control command with the bus available,
control_led performs, in this order, exactly the committed DeviceState
upsert, then the publish of the original command, then the publish of a
state-confirmation message whose type differs from the command's; the
returned result reports the persisted state; and replaying the effects on
the device table leaves the persisted state in place whatever the two
publish outcomes are (ctx carries them and they influence nothing). -/
theorem control_led_persist_then_publish (ctx : ControlCtx) (action : String)
    (brightness : ℤ)
    (hv : action ∈ (["on", "off", "toggle"] : List String))
    (hp : ctx.pubnub_available = true) :
    let b := clamp_brightness brightness
    let fs := if action = "toggle" then toggle_resolve ctx.led_state else action
    let cmdMsg : PubMessage :=
      { type_ := "control_command", device := "led", action := some action,
        brightness := some b }
    let stMsg : PubMessage :=
      { type_ := "state_update", device := "led", state := some fs,
        parameters := [("brightness", b)] }
    (control_led ctx action brightness).1
        = [ControlEffect.persistState "led" fs [("brightness", b)],
           ControlEffect.publish PUBNUB_CONTROL_CHANNEL cmdMsg,
           ControlEffect.publish PUBNUB_CONTROL_CHANNEL stMsg] ∧
      cmdMsg.type_ ≠ stMsg.type_ ∧
      (control_led ctx action brightness).2.success = true ∧
      (control_led ctx action brightness).2.state = some fs ∧
      db_led_after ctx.led_state (control_led ctx action brightness).1 = some fs := by
  intro b fs cmdMsg stMsg
  have hnv : ¬ action ∉ (["on", "off", "toggle"] : List String) := not_not_intro hv
  have heq : control_led ctx action brightness
      = ([ControlEffect.persistState "led" fs [("brightness", b)],
          ControlEffect.publish PUBNUB_CONTROL_CHANNEL cmdMsg,
          ControlEffect.publish PUBNUB_CONTROL_CHANNEL stMsg],
         { success := true, action := some action, device := some "led",
           state := some fs, brightness := some b }) := by
    unfold control_led
    rw [if_neg hnv, hp]
    simp
  refine ⟨?_, by simp [cmdMsg, stMsg], ?_, ?_, ?_⟩
  · rw [heq]
  · rw [heq]
  · rw [heq]
  · rw [heq]
    simp only [db_led_after]

/-- Witness for C5: turning the led on with brightness request 150 persists
state on with the brightness clamped to 100, and the replayed effects leave
the led row at on. -/
theorem control_led_persist_then_publish_witness :
    (control_led {} "on" 150).2.state = some "on" ∧
    db_led_after none (control_led {} "on" 150).1 = some "on" := by
  have h := control_led_persist_then_publish {} "on" 150 (by decide) rfl
  simp only [reduceIte] at h
  exact ⟨h.2.2.2.1, h.2.2.2.2⟩

/-- C6: a toggle command for the led resolves to on when no DeviceState row
exists for the device, and to off when the last recorded state is on. -/
theorem control_led_toggle_resolution (ctx : ControlCtx) (b : ℤ) :
    (ctx.led_state = none → (control_led ctx "toggle" b).2.state = some "on") ∧
    (ctx.led_state = some "on" → (control_led ctx "toggle" b).2.state = some "off") := by
  constructor <;> intro h <;> simp [control_led, toggle_resolve, h]

/-- Witness for C6: both toggle resolutions at concrete device states. -/
theorem control_led_toggle_resolution_witness :
    (control_led { led_state := none } "toggle" 100).2.state = some "on" ∧
    (control_led { led_state := some "on" } "toggle" 100).2.state = some "off" :=
  ⟨(control_led_toggle_resolution { led_state := none } 100).1 rfl,
   (control_led_toggle_resolution { led_state := some "on" } 100).2 rfl⟩

/-- Helper for C9: the retry loop never performs more read attempts than its
fuel allows. -/
theorem read_with_retry_aux_le (reads : ℕ → Option (ℚ × ℚ)) :
    ∀ fuel start, (read_with_retry_aux reads start fuel).2 ≤ start + fuel := by
  intro fuel
  induction fuel with
  | zero => intro start; simp [read_with_retry_aux]
  | succ n ih =>
    intro start
    rw [read_with_retry_aux]
    cases reads start with
    | some v => simp
    | none =>
      simp only
      have := ih (start + 1)
      omega

/-- Helper for C9: the retry loop returns the first successful read, having
performed exactly the attempts up to and including it. -/
theorem read_with_retry_aux_first (reads : ℕ → Option (ℚ × ℚ)) :
    ∀ fuel start i v, i < fuel → (∀ j, j < i → reads (start + j) = none) →
      reads (start + i) = some v →
      read_with_retry_aux reads start fuel = (some v, start + i + 1) := by
  intro fuel
  induction fuel with
  | zero => intro start i v hi; omega
  | succ n ih =>
    intro start i v hi hnone hv
    rw [read_with_retry_aux]
    cases i with
    | zero =>
      simp only [Nat.add_zero] at hv
      rw [hv]
    | succ k =>
      have h0 : reads start = none := by
        have := hnone 0 (by omega)
        simpa using this
      rw [h0]
      simp only
      have hrec := ih (start + 1) k v (by omega)
        (by
          intro j hj
          have := hnone (j + 1) (by omega)
          simpa [show start + (j + 1) = start + 1 + j by omega] using this)
        (by simpa [show start + (k + 1) = start + 1 + k by omega] using hv)
      rw [hrec]
      congr 1
      omega

/-- Helper for C9: when every attempt fails the retry loop exhausts its fuel
and returns none. -/
theorem read_with_retry_aux_none (reads : ℕ → Option (ℚ × ℚ))
    (hall : ∀ j, reads j = none) :
    ∀ fuel start, read_with_retry_aux reads start fuel = (none, start + fuel) := by
  intro fuel
  induction fuel with
  | zero => intro start; simp [read_with_retry_aux]
  | succ n ih =>
    intro start
    rw [read_with_retry_aux, hall start]
    simp only
    rw [ih (start + 1)]
    congr 1
    omega

/-- C9: read_with_retry performs at most max_attempts reads and returns the
first successful read's value after exactly the attempts up to it; when
every attempt fails it returns none after max_attempts attempts, and the
assembled batch then simply omits the temperature and humidity fields while
remaining a valid partial batch carrying the device identity. -/
theorem read_with_retry_spec :
    (∀ reads maxA, 1 ≤ maxA → (read_with_retry reads maxA).2 ≤ maxA) ∧
    (∀ reads maxA i v, i < maxA → (∀ j, j < i → reads j = none) →
      reads i = some v → read_with_retry reads maxA = (some v, i + 1)) ∧
    (∀ reads maxA, (∀ j, reads j = none) → read_with_retry reads maxA = (none, maxA)) ∧
    (∀ reads light pir, (∀ j, reads j = none) →
      (read_all_sensors reads light pir).temperature = none ∧
      (read_all_sensors reads light pir).humidity = none ∧
      (read_all_sensors reads light pir).device_id = DEVICE_ID ∧
      (read_all_sensors reads light pir).location = DEVICE_LOCATION) := by
  have hfirst : ∀ (reads : ℕ → Option (ℚ × ℚ)) maxA i v, i < maxA →
      (∀ j, j < i → reads j = none) → reads i = some v →
      read_with_retry reads maxA = (some v, i + 1) := by
    intro reads maxA i v hi hnone hv
    unfold read_with_retry
    have := read_with_retry_aux_first reads maxA 0 i v hi
      (by intro j hj; simpa using hnone j hj) (by simpa using hv)
    simpa using this
  have hnone : ∀ (reads : ℕ → Option (ℚ × ℚ)) maxA, (∀ j, reads j = none) →
      read_with_retry reads maxA = (none, maxA) := by
    intro reads maxA hall
    unfold read_with_retry
    simpa using read_with_retry_aux_none reads hall maxA 0
  refine ⟨?_, hfirst, hnone, ?_⟩
  · intro reads maxA _
    have := read_with_retry_aux_le reads maxA 0
    simpa [read_with_retry] using this
  · intro reads light pir hall
    have h2 := hnone reads 2 hall
    unfold read_all_sensors
    rw [h2]
    cases light with
    | none =>
      cases pir with
      | none => simp
      | some v => by_cases hv : v = 1 <;> simp [hv]
    | some l =>
      cases pir with
      | none => simp
      | some v => by_cases hv : v = 1 <;> simp [hv]

/-- Witness for C9: the fail-fail-succeed scenario returns the third
attempt's value after exactly three reads; with all reads failing the
result is none after three attempts and the batch omits temperature. -/
theorem read_with_retry_spec_witness :
    read_with_retry dhtScenario 3 = (some (43 / 2, 55), 3) ∧
    read_with_retry (fun _ => none) 3 = (none, 3) ∧
    (read_all_sensors (fun _ => none) (some 120) none).temperature = none := by
  refine ⟨?_, ?_, ?_⟩
  · have h := read_with_retry_spec.2.1 dhtScenario 3 2 (43 / 2, 55) (by norm_num)
      (by intro j hj; simp only [dhtScenario]; rw [if_neg (by omega)])
      (by simp [dhtScenario])
    simpa using h
  · exact read_with_retry_spec.2.2.1 (fun _ => none) 3 (fun _ => rfl)
  · exact (read_with_retry_spec.2.2.2 (fun _ => none) (some 120) none (fun _ => rfl)).1

/-- C1 (code bug): on a valid batch sensor message with two populated sensor
fields, the fan-out the spec describes yields two readings, one per field;
the code instead persists a single row built from the message's absent
sensor_type and value keys and performs zero threshold checks, the handler
having caught the TypeError raised when it iterated the single SensorReading
object. -/
theorem sensor_fanout_bug :
    (spec_fan_out batchMessage).length = 2 ∧
    spec_fan_out batchMessage = [("temperature", 45 / 2), ("humidity", 55)] ∧
    (handle_sensor_message true batchMessage).checked = [] ∧
    (handle_sensor_message true batchMessage).exceptionCaught = true ∧
    (handle_sensor_message true batchMessage).persisted
      = [{ sensor_type := none, value := none, unit := none,
           location := "living_room", device_id := "rpi-001" }] :=
  ⟨rfl, rfl, rfl, rfl, rfl⟩

/-- Helper for C2: the accepted-sample branch of read defers to the
state-change core after bumping the reading counter and the last accepted
read time. -/
theorem pir_read_accepted (cfg : PIRConfig) (s : PIRState) (t : ℚ) (b : Bool)
    (h : ¬ t - s.last_read_time < cfg.debounce_time) :
    (pir_read cfg s t b).1
      = pir_step_core cfg
          { s with total_readings := s.total_readings + 1, last_read_time := t } t b := by
  unfold pir_read
  dsimp only
  rw [if_neg h]

/-- Helper for C2: the core emits a start event, incrementing the event
counter, exactly at a false-to-true edge of the raw samples. -/
theorem pir_step_core_total (cfg : PIRConfig) (s : PIRState) (t : ℚ) (b : Bool) :
    (pir_step_core cfg s t b).total_motion_events
      = s.total_motion_events + (if b && !s.last_state then 1 else 0) := by
  unfold pir_step_core
  cases b with
  | true =>
    cases hls : s.last_state with
    | false => simp [hls, on_motion_start]
    | true => simp [hls]
  | false =>
    cases hls : s.last_state with
    | false => simp [hls]
    | true =>
      cases hlm : s.last_motion_time with
      | none => simp [hls, hlm]
      | some tm =>
        by_cases ht : t - tm > cfg.motion_timeout <;>
          simp [hls, hlm, ht, on_motion_end]

/-- Helper for C2: the core emits an end event exactly at a true-to-false
edge whose distance to the last true sample exceeds the timeout. -/
theorem pir_step_core_ends (cfg : PIRConfig) (s : PIRState) (t : ℚ) (b : Bool) :
    ((pir_step_core cfg s t b).emitted.filter (fun e => e.typ == "end")).length
      = (s.emitted.filter (fun e => e.typ == "end")).length
        + (if !b && s.last_state then
            match s.last_motion_time with
            | some tm => if t - tm > cfg.motion_timeout then 1 else 0
            | none => 0
          else 0) := by
  unfold pir_step_core
  cases b with
  | true =>
    cases hls : s.last_state with
    | false => simp [hls, on_motion_start]
    | true => simp [hls]
  | false =>
    cases hls : s.last_state with
    | false => simp [hls]
    | true =>
      cases hlm : s.last_motion_time with
      | none => simp [hls, hlm]
      | some tm =>
        by_cases ht : t - tm > cfg.motion_timeout <;>
          simp [hls, hlm, ht, on_motion_end]

/-- Helper for C2: after the core runs, the remembered raw sample is the one
just processed. -/
theorem pir_step_core_last_state (cfg : PIRConfig) (s : PIRState) (t : ℚ) (b : Bool) :
    (pir_step_core cfg s t b).last_state = b := rfl

/-- Helper for C2: the core refreshes the last motion time exactly on a true
sample. -/
theorem pir_step_core_last_motion (cfg : PIRConfig) (s : PIRState) (t : ℚ) (b : Bool) :
    (pir_step_core cfg s t b).last_motion_time
      = if b then some t else s.last_motion_time := by
  unfold pir_step_core
  cases b with
  | true => simp
  | false =>
    cases hls : s.last_state with
    | false => simp [hls]
    | true =>
      cases hlm : s.last_motion_time with
      | none => simp [hls, hlm]
      | some tm =>
        by_cases ht : t - tm > cfg.motion_timeout <;>
          simp [hls, hlm, ht, on_motion_end]

/-- Helper for C2: the core never touches the last accepted read time. -/
theorem pir_step_core_last_read (cfg : PIRConfig) (s : PIRState) (t : ℚ) (b : Bool) :
    (pir_step_core cfg s t b).last_read_time = s.last_read_time := by
  unfold pir_step_core
  cases b with
  | true =>
    cases hls : s.last_state with
    | false => simp [hls, on_motion_start]
    | true => simp [hls]
  | false =>
    cases hls : s.last_state with
    | false => simp [hls]
    | true =>
      cases hlm : s.last_motion_time with
      | none => simp [hls, hlm]
      | some tm =>
        by_cases ht : t - tm > cfg.motion_timeout <;>
          simp [hls, hlm, ht, on_motion_end]

/-- Helper for C2: over any accepted sample sequence, the machine's event
counter advances by one per false-to-true edge and its emitted end events by
one per timed-out true-to-false edge, from any starting state. -/
theorem pir_run_counts (cfg : PIRConfig) :
    ∀ (trace : List (ℚ × Bool)) (s : PIRState),
      wellSpaced cfg.debounce_time s.last_read_time trace →
      (pir_run cfg s trace).total_motion_events
          = s.total_motion_events + start_count s.last_state (trace.map Prod.snd) ∧
        ((pir_run cfg s trace).emitted.filter (fun e => e.typ == "end")).length
          = (s.emitted.filter (fun e => e.typ == "end")).length
            + end_count cfg.motion_timeout s.last_motion_time s.last_state trace := by
  intro trace
  induction trace with
  | nil =>
    intro s _
    simp [pir_run, start_count, end_count]
  | cons p rest ih =>
    obtain ⟨t, b⟩ := p
    intro s hw
    obtain ⟨h1, h2⟩ := hw
    have hacc : ¬ t - s.last_read_time < cfg.debounce_time := not_lt.mpr h1
    rw [pir_run, pir_read_accepted cfg s t b hacc]
    have hrest := ih (pir_step_core cfg
      { s with total_readings := s.total_readings + 1, last_read_time := t } t b)
      (by
        rw [pir_step_core_last_read]
        exact h2)
    obtain ⟨ht1, ht2⟩ := hrest
    constructor
    · rw [ht1, pir_step_core_total, pir_step_core_last_state]
      simp only [List.map_cons, start_count]
      dsimp only
      omega
    · rw [ht2, pir_step_core_ends, pir_step_core_last_state, pir_step_core_last_motion]
      simp only [end_count]
      omega

/-- C2 counterexample: with the default configuration, the accepted trace
true at 1, false at 2, true at 3 has a single maximal true-run under the
claim's gap-splitting (the 2-second true-to-true gap is below the 5-second
timeout), yet the machine emits two start events: a short false gap does
split a run. -/
theorem pir_short_gap_splits_run : ¬ pirStartClaim defaultPIRConfig := by
  intro h
  have hw : wellSpaced defaultPIRConfig.debounce_time 0 [(1, true), (2, false), (3, true)] := by
    refine ⟨by norm_num [defaultPIRConfig], by norm_num [defaultPIRConfig],
      by norm_num [defaultPIRConfig], trivial⟩
  have hc := h [(1, true), (2, false), (3, true)] hw
  have hrc := pir_run_counts defaultPIRConfig [(1, true), (2, false), (3, true)]
    initPIRState hw
  have hspec : spec_gap_split_runs defaultPIRConfig.motion_timeout none
      [(1, true), (2, false), (3, true)] = 1 := by
    have h5 : ¬ ((3 : ℚ) - 1 > defaultPIRConfig.motion_timeout) := by
      norm_num [defaultPIRConfig]
    simp [spec_gap_split_runs, h5]
  rw [hrc.1, hspec] at hc
  simp [initPIRState, start_count] at hc

/-- C2 amended: over every accepted sample sequence, the number of start
events equals the number of maximal true-runs where every accepted false
sample terminates a run regardless of the gap's length (so a short gap does
produce an extra start event on the next true sample), and an end event is
emitted exactly at a true-to-false edge whose distance to the last true
sample exceeds motion_timeout (in particular a gap of false samples each
within motion_timeout of the last true sample produces no end event). -/
theorem pir_run_start_end_events (cfg : PIRConfig) (trace : List (ℚ × Bool))
    (hw : wellSpaced cfg.debounce_time 0 trace) :
    (pir_run cfg initPIRState trace).total_motion_events
        = start_count false (trace.map Prod.snd) ∧
      ((pir_run cfg initPIRState trace).emitted.filter (fun e => e.typ == "end")).length
        = end_count cfg.motion_timeout none false trace := by
  have h := pir_run_counts cfg trace initPIRState hw
  simpa [initPIRState] using h

/-- Witness for C2's amended theorem: on the accepted trace true at 1, false
at 7, the machine emits one start event (one true-run) and one end event
(the 6-second gap exceeds the 5-second timeout). -/
theorem pir_run_start_end_events_witness :
    (pir_run defaultPIRConfig initPIRState [(1, true), (7, false)]).total_motion_events = 1 ∧
    ((pir_run defaultPIRConfig initPIRState [(1, true), (7, false)]).emitted.filter
        (fun e => e.typ == "end")).length = 1 := by
  have h := pir_run_start_end_events defaultPIRConfig [(1, true), (7, false)]
    (by refine ⟨by norm_num [defaultPIRConfig], by norm_num [defaultPIRConfig], trivial⟩)
  have hend : end_count defaultPIRConfig.motion_timeout none false
      [(1, true), (7, false)] = 1 := by
    have h6 : (7 : ℚ) - 1 > defaultPIRConfig.motion_timeout := by
      norm_num [defaultPIRConfig]
    simp [end_count, h6]
  exact ⟨h.1.trans (by decide), h.2.trans hend⟩

end SmartHomeIoT
